import Mathlib

/-
Verification development for the Goal Tracker layout engine
(src/goal_tracker.py).

The geometry is embedded over ℚ (ReportLab points; 1 inch = 72 points).
Python float literals such as 0.1, 0.5 and 0.6 appearing in the source are
exactly representable as the decimal rationals used here, and every
arithmetic step in the embedded formulas (addition, subtraction,
multiplication by constants, division by 52, min) is exact on the dyadic
values the program actually computes, so ℚ is a faithful model of the
source's float arithmetic on these formulas.

Week numbers, quarters and months are embedded as ℤ.  Python's floor
division `//` with a positive divisor coincides with Lean's `Int` division
`/` (Euclidean division, which floors for positive divisors), and Python's
`%` with positive modulus coincides with Lean's `Int` `%`; both facts are
used silently below.
-/

set_option maxRecDepth 8000

/-- One inch in points, `reportlab.lib.units.inch`. -/
def inch : ℚ := 72

/-- Embeds the `PageConfig` dataclass of src/goal_tracker.py. -/
structure PageConfig where
  width : ℚ
  height : ℚ
  top_margin : ℚ
  bottom_margin : ℚ
  left_margin : ℚ
  right_margin : ℚ
deriving Repr

namespace LayoutManager

/-- Class constant `WEEKS_IN_YEAR = 52`. -/
def WEEKS_IN_YEAR : ℤ := 52

/-- Class constant `WEEKS_PER_QUARTER = 13`. -/
def WEEKS_PER_QUARTER : ℤ := 13

/-- Class constant `WEEKS_PER_MONTH = 4`. -/
def WEEKS_PER_MONTH : ℤ := 4

/-- Class constant `MONTHS_IN_YEAR = 12`. -/
def MONTHS_IN_YEAR : ℤ := 12

/-- Class constant `CATCH_UP_WEEKS = {13, 26, 39, 52}`. -/
def CATCH_UP_WEEKS : List ℤ := [13, 26, 39, 52]

/-- From `_calculate_dimensions`:
`bonus_height = min(0.1 * inch, self.page_config.bottom_margin * 0.5)`. -/
def bonus_height (p : PageConfig) : ℚ :=
  min (0.1 * inch) (p.bottom_margin * 0.5)

/-- From `_calculate_dimensions`:
`self.available_height = height - top_margin - bottom_margin + bonus_height`. -/
def available_height (p : PageConfig) : ℚ :=
  p.height - p.top_margin - p.bottom_margin + bonus_height p

/-- From `_calculate_dimensions`:
`header_height = 0.6 * inch` (a local constant of that method),
`available_for_rows = self.available_height - header_height`,
`self.calculated_row_height = available_for_rows / self.WEEKS_IN_YEAR`. -/
def calculated_row_height (p : PageConfig) : ℚ :=
  (available_height p - 0.6 * inch) / (WEEKS_IN_YEAR : ℚ)

/-- `get_row_height` returns `self.calculated_row_height`. -/
def get_row_height (p : PageConfig) : ℚ :=
  calculated_row_height p

/-- `get_header_height` returns `0.5 * inch` (note: this differs from the
`0.6 * inch` local constant used inside `_calculate_dimensions`). -/
def get_header_height : ℚ := 0.5 * inch

/-- `get_week_y_position`:
`y = height - top_margin - header_height - (week_number - 1) * row_height`
with `header_height = get_header_height()` and
`row_height = get_row_height()`. -/
def get_week_y_position (p : PageConfig) (week_number : ℤ) : ℚ :=
  p.height - p.top_margin - get_header_height
    - ((week_number : ℚ) - 1) * get_row_height p

/-- From `_calculate_dimensions`:
`self.available_width = width - left_margin - right_margin`. -/
def available_width (p : PageConfig) : ℚ :=
  p.width - p.left_margin - p.right_margin

/-- The derived state stored on `self` by `LayoutManager.__init__` via
`_calculate_dimensions`. -/
structure LayoutState where
  available_width : ℚ
  available_height : ℚ
  calculated_row_height : ℚ
deriving Repr

/-- Embeds `LayoutManager.__init__`: the constructor only stores the page
configuration and runs `_calculate_dimensions`.  The body contains no
`raise`, no assertion and no operation that can fail, so the fallible
embedding always returns `.ok`. -/
def init (p : PageConfig) : Except String LayoutState :=
  .ok { available_width := available_width p,
        available_height := available_height p,
        calculated_row_height := calculated_row_height p }

/-- `get_quarter_for_week`: `(week_number - 1) // WEEKS_PER_QUARTER + 1`
(Python floor division; the divisor 13 is positive, so Lean's `Int`
division agrees). -/
def get_quarter_for_week (week_number : ℤ) : ℤ :=
  (week_number - 1) / WEEKS_PER_QUARTER + 1

/-- `is_catch_up_week`: `week_number in LayoutManager.CATCH_UP_WEEKS`. -/
def is_catch_up_week (week_number : ℤ) : Bool :=
  CATCH_UP_WEEKS.contains week_number

/-- The `month_mapping` dict literal of `get_month_for_week`: each entry is
a Python `range(lo, hi)` (half-open) paired with the month it maps to, in
the source's insertion order. -/
def month_mapping : List ((ℤ × ℤ) × ℤ) :=
  [((1, 5), 1), ((5, 9), 2), ((9, 13), 3),
   ((14, 18), 4), ((18, 22), 5), ((22, 26), 6),
   ((27, 31), 7), ((31, 35), 8), ((35, 39), 9),
   ((40, 44), 10), ((44, 48), 11), ((48, 52), 12)]

/-- `get_month_for_week`: returns `-1` for catch-up weeks, otherwise scans
`month_mapping` in order and returns the month of the first `range`
containing the week, or `-1` if none does. -/
def get_month_for_week (week_number : ℤ) : ℤ :=
  if is_catch_up_week week_number then -1
  else
    match month_mapping.find?
        (fun e => decide (e.1.1 ≤ week_number ∧ week_number < e.1.2)) with
    | some e => e.2
    | none => -1

/-- The `abbreviations` list of `get_month_abbreviation`. -/
def abbreviations : List String :=
  ["Jan", "Feb", "Mar", "Apr", "May", "Jun",
   "Jul", "Aug", "Sep", "Oct", "Nov", "Dec"]

/-- `get_month_abbreviation`:
`abbreviations[month_number - 1] if 1 <= month_number <= 12 else ""`. -/
def get_month_abbreviation (month_number : ℤ) : String :=
  if 1 ≤ month_number ∧ month_number ≤ 12 then
    abbreviations.getD (month_number - 1).toNat ""
  else ""

end LayoutManager

namespace Calendar

/-
Embedding of the proleptic Gregorian calendar as used by Python's
`datetime` module.  Dates are represented by their Rata Die day number
(day 1 = January 1 of year 1, the same ordinal used by
`datetime.date.toordinal`); `0001-01-01` is a Monday.
-/

/-- Gregorian leap-year rule. -/
def isLeap (y : ℤ) : Bool :=
  y % 4 == 0 && (y % 100 != 0 || y % 400 == 0)

/-- Cumulative day counts before each month in a common year. -/
def days_before_month_table : List ℤ :=
  [0, 31, 59, 90, 120, 151, 181, 212, 243, 273, 304, 334]

/-- Days in year `y` strictly before month `m` (1-based). -/
def days_before_month (leap : Bool) (m : ℤ) : ℤ :=
  days_before_month_table.getD (m - 1).toNat 0
    + (if leap && decide (2 < m) then 1 else 0)

/-- Rata Die day number of the date `y-m-d` (equals
`datetime.date(y, m, d).toordinal()` in Python). -/
def rata_die (y m d : ℤ) : ℤ :=
  365 * (y - 1) + (y - 1) / 4 - (y - 1) / 100 + (y - 1) / 400
    + days_before_month (isLeap y) m + d

/-- Python `datetime.weekday()`: 0 = Monday .. 6 = Sunday.  Day 1
(0001-01-01) is a Monday. -/
def weekday (rd : ℤ) : ℤ :=
  (rd - 1) % 7

/-- Day-of-month component of a Rata Die day number (the `.day` attribute
of the corresponding Python `datetime`), computed by the standard
civil-from-days algorithm.  All divisions have positive divisors, so
Lean's floor-like `Int` division matches the algorithm's intent. -/
def day_of_month (rd : ℤ) : ℤ :=
  let z := rd - 719163 + 719468
  let era := z / 146097
  let doe := z - era * 146097
  let yoe := (doe - doe / 1460 + doe / 36524 - doe / 146096) / 365
  let doy := doe - (365 * yoe + yoe / 4 - yoe / 100)
  let mp := (5 * doy + 2) / 153
  doy - (153 * mp + 2) / 5 + 1

end Calendar

namespace GoalTrackerPDF

/-
Embedding of the calendar computations of `GoalTrackerPDF`:
the month-partition scan shared by `draw_monthly_column` and `draw_grid`,
and the ISO-week date arithmetic of `draw_weekly_column`.
-/

/-- State of the week-scanning loop of `draw_monthly_column`.  The Python
dict `month_lines : month -> [weeks]` is represented by the equivalent
association list of `(week, assigned month)` pairs in scan order (each
week is appended to exactly one month's list). -/
structure MonthScanState where
  current_month : ℤ
  month_week_count : ℤ
  month_lines : List (ℤ × ℤ)
deriving Repr

/-- One iteration of the `for week in range(1, 53)` loop of
`draw_monthly_column`: skip catch-up weeks; otherwise increment the
per-month counter, rolling over to the next month after
`WEEKS_PER_MONTH = 4` weeks, and record the week's month. -/
def month_scan_step (st : MonthScanState) (week : ℤ) : MonthScanState :=
  if LayoutManager.is_catch_up_week week then st
  else
    let cnt := st.month_week_count + 1
    if 4 < cnt then
      { current_month := st.current_month + 1,
        month_week_count := 1,
        month_lines := st.month_lines ++ [(week, st.current_month + 1)] }
    else
      { st with
        month_week_count := cnt,
        month_lines := st.month_lines ++ [(week, st.current_month)] }

/-- The week list `[1, ..., 52]` iterated by the drawing loops. -/
def weeks_list : List ℤ :=
  (List.range 52).map (fun i => (i : ℤ) + 1)

/-- The completed `month_lines` association built by `draw_monthly_column`
(and rebuilt identically by `draw_grid`). -/
def month_lines : List (ℤ × ℤ) :=
  (weeks_list.foldl month_scan_step ⟨1, 0, []⟩).month_lines

/-- The month the sequential-partition scan assigns to a week, or `-1` for
weeks the scan skips (the catch-up weeks). -/
def sequential_month_for_week (week : ℤ) : ℤ :=
  match month_lines.find? (fun e => e.1 == week) with
  | some e => e.2
  | none => -1

/-- From `draw_weekly_column`: `jan4 = datetime(self.year, 1, 4)`. -/
def jan4_rd (year : ℤ) : ℤ :=
  Calendar.rata_die year 1 4

/-- From `draw_weekly_column`:
`iso_week1_monday = jan4 - timedelta(days=jan4.weekday())`. -/
def iso_week1_monday (year : ℤ) : ℤ :=
  jan4_rd year - Calendar.weekday (jan4_rd year)

/-- The ISO week number `datetime(year, 12, 28).isocalendar()[1]`.
December 28 always lies in the final ISO week of its own calendar year
(the next ISO year never starts before December 29), so its ISO week
number is the offset in whole weeks from the Monday of ISO week 1 of
`year`, plus one.  This specialisation at December 28 is exactly the value
Python's `isocalendar` returns there. -/
def dec28_iso_week (year : ℤ) : ℤ :=
  (Calendar.rata_die year 12 28 - iso_week1_monday year) / 7 + 1

/-- From `draw_weekly_column`:
`has_iso_53 = datetime(self.year, 12, 28).isocalendar()[1] == 53`. -/
def has_iso_53 (year : ℤ) : Bool :=
  dec28_iso_week year == 53

/-- From `draw_weekly_column`: `start_iso_week = 2 if has_iso_53 else 1`. -/
def start_iso_week (year : ℤ) : ℤ :=
  if has_iso_53 year then 2 else 1

/-- From `draw_weekly_column`:
`iso_week_num = start_iso_week + row_index - 1`. -/
def iso_week_num (year row_index : ℤ) : ℤ :=
  start_iso_week year + row_index - 1

/-- From `draw_weekly_column`:
`week_monday = iso_week1_monday + timedelta(days=(iso_week_num - 1) * 7)`. -/
def week_monday (year row_index : ℤ) : ℤ :=
  iso_week1_monday year + (iso_week_num year row_index - 1) * 7

/-- From `draw_weekly_column`: `week_friday = week_monday + timedelta(days=4)`. -/
def week_friday (year row_index : ℤ) : ℤ :=
  week_monday year row_index + 4

/-- From `draw_weekly_column`:
`day_range = f"{week_monday.day}-{week_friday.day}"`. -/
def day_range (year row_index : ℤ) : String :=
  toString (Calendar.day_of_month (week_monday year row_index)) ++ "-"
    ++ toString (Calendar.day_of_month (week_friday year row_index))

end GoalTrackerPDF

/-- The letter page with half-inch margins used as fixture throughout
tests/test_goal_tracker.py (values in points). -/
def standard_page : PageConfig :=
  { width := 612, height := 792, top_margin := 36, bottom_margin := 36,
    left_margin := 36, right_margin := 36 }

/-- A malformed page whose top and bottom margins sum to more than the
page height. -/
def degenerate_page : PageConfig :=
  { width := 612, height := 792, top_margin := 400, bottom_margin := 400,
    left_margin := 36, right_margin := 36 }

/-- Claim C1 (counterexample): no single headerHeight constant makes both
the row-height formula and the week-y-position formula of the claim hold;
on the standard page the first forces 43.2 points (0.6 inch) while the
second forces 36 points (0.5 inch). -/
theorem c1_counterexample :
    ¬ ∃ headerHeight : ℚ, ∀ (p : PageConfig) (week : ℤ),
      LayoutManager.get_row_height p =
        (p.height - p.top_margin - p.bottom_margin
          + min (0.1 * inch) (p.bottom_margin * 0.5) - headerHeight) / 52 ∧
      LayoutManager.get_week_y_position p week =
        p.height - p.top_margin - headerHeight
          - ((week : ℚ) - 1) * LayoutManager.get_row_height p := by
  rintro ⟨H, h⟩
  obtain ⟨h1, h2⟩ := h standard_page 1
  norm_num [LayoutManager.get_row_height, LayoutManager.calculated_row_height,
    LayoutManager.available_height, LayoutManager.bonus_height,
    LayoutManager.get_week_y_position, LayoutManager.get_header_height,
    LayoutManager.WEEKS_IN_YEAR, inch, standard_page, min_def] at h1 h2
  linarith

/-- Claim C1 (amended): the row height is computed with a fixed 0.6-inch
header constant, `rowHeight p = (pageHeight - topMargin - bottomMargin +
min(0.1 inch, bottomMargin/2) - 0.6 inch) / 52`, while
`get_week_y_position` uses the separate 0.5-inch `get_header_height`
constant, `rowY p week = pageHeight - topMargin - 0.5 inch -
(week - 1) * rowHeight p`. -/
theorem c1_two_header_constants (p : PageConfig) (week : ℤ) :
    LayoutManager.get_row_height p =
      (p.height - p.top_margin - p.bottom_margin
        + min (0.1 * inch) (p.bottom_margin * 0.5) - 0.6 * inch) / 52 ∧
    LayoutManager.get_week_y_position p week =
      p.height - p.top_margin - 0.5 * inch
        - ((week : ℚ) - 1) * LayoutManager.get_row_height p := by
  constructor
  · unfold LayoutManager.get_row_height LayoutManager.calculated_row_height
      LayoutManager.available_height LayoutManager.bonus_height
      LayoutManager.WEEKS_IN_YEAR
    norm_num
  · unfold LayoutManager.get_week_y_position LayoutManager.get_header_height
    ring

/-- Claim C2 (counterexample): it is not the case that a configuration
with non-positive computed row height makes the constructor fail; the
embedded `LayoutManager.__init__` succeeds on `degenerate_page` even
though its row height is negative. -/
theorem c2_counterexample :
    ¬ ∀ p : PageConfig, LayoutManager.calculated_row_height p ≤ 0 →
        (LayoutManager.init p).isOk = false := by
  intro h
  have hneg : LayoutManager.calculated_row_height degenerate_page ≤ 0 := by
    norm_num [LayoutManager.calculated_row_height, LayoutManager.available_height,
      LayoutManager.bonus_height, LayoutManager.WEEKS_IN_YEAR, inch,
      degenerate_page, min_def]
  have := h degenerate_page hneg
  simp [LayoutManager.init, Except.isOk, Except.toBool] at this

/-- Claim C2 (amended): `LayoutManager.__init__` performs no geometry
validation: construction always succeeds, and on a page whose top and
bottom margins sum to more than the page height it silently stores a
negative calculated row height. -/
theorem c2_init_never_fails :
    (∀ p : PageConfig, (LayoutManager.init p).isOk = true) ∧
    degenerate_page.height <
      degenerate_page.top_margin + degenerate_page.bottom_margin ∧
    LayoutManager.calculated_row_height degenerate_page < 0 := by
  refine ⟨fun p => rfl, by norm_num [degenerate_page], ?_⟩
  norm_num [LayoutManager.calculated_row_height, LayoutManager.available_height,
    LayoutManager.bonus_height, LayoutManager.WEEKS_IN_YEAR, inch,
    degenerate_page, min_def]

/-- Claim C3: on every week 1..52, the table-based `get_month_for_week`
agrees with the month assigned by the sequential-partition scan of
`draw_monthly_column`, and returns the catch-up sentinel `-1` exactly on
the catch-up weeks. -/
theorem c3_table_matches_sequential_partition :
    ∀ w : ℤ, 1 ≤ w → w ≤ 52 →
      LayoutManager.get_month_for_week w =
        GoalTrackerPDF.sequential_month_for_week w ∧
      (LayoutManager.get_month_for_week w = -1 ↔
        LayoutManager.is_catch_up_week w = true) := by
  intro w h1 h2
  interval_cases w <;> exact ⟨by decide, by decide⟩

/-- Concrete instance of `c3_table_matches_sequential_partition` at
week 14. -/
theorem c3_witness :
    LayoutManager.get_month_for_week 14 =
      GoalTrackerPDF.sequential_month_for_week 14 :=
  (c3_table_matches_sequential_partition 14 (by norm_num) (by norm_num)).1

/-- Claim C4 (counterexample): for out-of-range weeks `get_quarter_for_week`
does return a value rather than failing: 0 for week 0 and 5 for week 53. -/
theorem c4_counterexample :
    LayoutManager.get_quarter_for_week 0 = 0 ∧
    LayoutManager.get_quarter_for_week 53 = 5 := by
  constructor <;> decide

/-- Claim C4 (amended): `get_quarter_for_week` does not validate its
input; for every week outside [1, 52] it still returns
`floor((week - 1) / 13) + 1`, a value outside the quarter range 1..4. -/
theorem c4_out_of_range_returns_value :
    ∀ w : ℤ, w < 1 ∨ 52 < w →
      LayoutManager.get_quarter_for_week w = (w - 1) / 13 + 1 ∧
      (LayoutManager.get_quarter_for_week w < 1 ∨
        4 < LayoutManager.get_quarter_for_week w) := by
  intro w h
  unfold LayoutManager.get_quarter_for_week LayoutManager.WEEKS_PER_QUARTER
  omega

/-- Concrete instance of `c4_out_of_range_returns_value` at week 0. -/
theorem c4_witness :
    LayoutManager.get_quarter_for_week 0 < 1 ∨
      4 < LayoutManager.get_quarter_for_week 0 :=
  (c4_out_of_range_returns_value 0 (Or.inl (by norm_num))).2

/-- Claim C5: the weekly-column date arithmetic: `iso_week1_monday` is the
Monday of the week containing January 4; row 1 corresponds to ISO week 2
exactly when December 28's ISO week number is 53, else to ISO week 1; a
row's Monday is `iso_week1_monday + 7 * (isoWeekNumber - 1)` and its
Friday is that Monday plus 4 days; and for 2020 the first row is
January 6 to January 10, labelled "6-10". -/
theorem c5_weekly_date_ranges :
    (∀ year row_index : ℤ,
      Calendar.weekday (GoalTrackerPDF.iso_week1_monday year) = 0 ∧
      GoalTrackerPDF.iso_week1_monday year ≤ GoalTrackerPDF.jan4_rd year ∧
      GoalTrackerPDF.jan4_rd year < GoalTrackerPDF.iso_week1_monday year + 7 ∧
      (GoalTrackerPDF.has_iso_53 year = true ↔
        GoalTrackerPDF.dec28_iso_week year = 53) ∧
      GoalTrackerPDF.iso_week_num year row_index =
        (if GoalTrackerPDF.has_iso_53 year then 2 else 1) + row_index - 1 ∧
      GoalTrackerPDF.week_monday year row_index =
        GoalTrackerPDF.iso_week1_monday year
          + 7 * (GoalTrackerPDF.iso_week_num year row_index - 1) ∧
      GoalTrackerPDF.week_friday year row_index =
        GoalTrackerPDF.week_monday year row_index + 4) ∧
    GoalTrackerPDF.has_iso_53 2020 = true ∧
    GoalTrackerPDF.week_monday 2020 1 = Calendar.rata_die 2020 1 6 ∧
    GoalTrackerPDF.day_range 2020 1 = "6-10" := by
  refine ⟨fun year row_index => ⟨?_, ?_, ?_, ?_, rfl, ?_, rfl⟩, by decide, by decide, by decide⟩
  · unfold GoalTrackerPDF.iso_week1_monday Calendar.weekday
    omega
  · unfold GoalTrackerPDF.iso_week1_monday Calendar.weekday
    omega
  · unfold GoalTrackerPDF.iso_week1_monday Calendar.weekday
    omega
  · simp [GoalTrackerPDF.has_iso_53]
  · unfold GoalTrackerPDF.week_monday
    ring

/-- Claim C6: `get_quarter_for_week` equals `floor((week - 1) / 13) + 1`;
on 1..52 its value lies in 1..4, it is monotone, quarter `q` is exactly
the contiguous block `13(q-1)+1 .. 13q`, and each quarter contains
exactly 13 of the 52 weeks. -/
theorem c6_quarter_formula :
    (∀ w : ℤ, LayoutManager.get_quarter_for_week w = (w - 1) / 13 + 1) ∧
    (∀ w : ℤ, 1 ≤ w → w ≤ 52 →
      1 ≤ LayoutManager.get_quarter_for_week w ∧
        LayoutManager.get_quarter_for_week w ≤ 4) ∧
    (∀ w w' : ℤ, 1 ≤ w → w ≤ w' → w' ≤ 52 →
      LayoutManager.get_quarter_for_week w ≤
        LayoutManager.get_quarter_for_week w') ∧
    (∀ q w : ℤ, 1 ≤ q → q ≤ 4 → 1 ≤ w → w ≤ 52 →
      (LayoutManager.get_quarter_for_week w = q ↔
        13 * (q - 1) + 1 ≤ w ∧ w ≤ 13 * q)) ∧
    (∀ q : ℤ, 1 ≤ q → q ≤ 4 →
      (GoalTrackerPDF.weeks_list.filter
        (fun w => LayoutManager.get_quarter_for_week w == q)).length = 13) := by
  refine ⟨fun w => rfl, ?_, ?_, ?_, ?_⟩
  · intro w h1 h2
    unfold LayoutManager.get_quarter_for_week LayoutManager.WEEKS_PER_QUARTER
    omega
  · intro w w' h1 h2 h3
    unfold LayoutManager.get_quarter_for_week LayoutManager.WEEKS_PER_QUARTER
    omega
  · intro q w hq1 hq2 hw1 hw2
    unfold LayoutManager.get_quarter_for_week LayoutManager.WEEKS_PER_QUARTER
    omega
  · intro q hq1 hq2
    interval_cases q <;> decide

/-- Concrete instance of `c6_quarter_formula` at week 26. -/
theorem c6_witness :
    1 ≤ LayoutManager.get_quarter_for_week 26 ∧
      LayoutManager.get_quarter_for_week 26 ≤ 4 :=
  c6_quarter_formula.2.1 26 (by norm_num) (by norm_num)

/-- Claim C7: on 1..52, `is_catch_up_week` holds exactly on
{13, 26, 39, 52}; `get_month_for_week` returns the sentinel -1 exactly on
those weeks; and every other week gets a month in 1..12. -/
theorem c7_catch_up_weeks :
    ∀ w : ℤ, 1 ≤ w → w ≤ 52 →
      (LayoutManager.is_catch_up_week w = true ↔
        (w = 13 ∨ w = 26 ∨ w = 39 ∨ w = 52)) ∧
      (LayoutManager.get_month_for_week w = -1 ↔
        LayoutManager.is_catch_up_week w = true) ∧
      (LayoutManager.is_catch_up_week w = false →
        1 ≤ LayoutManager.get_month_for_week w ∧
          LayoutManager.get_month_for_week w ≤ 12) := by
  intro w h1 h2
  interval_cases w <;> refine ⟨by decide, by decide, by decide⟩

/-- Concrete instance of `c7_catch_up_weeks` at week 26. -/
theorem c7_witness : LayoutManager.get_month_for_week 26 = -1 :=
  ((c7_catch_up_weeks 26 (by norm_num) (by norm_num)).2.1).mpr (by decide)

/-- Claim C8: when the computed row height is positive,
`get_week_y_position` is strictly decreasing on 1..52, and the first and
last rows are exactly 51 row heights apart. -/
theorem c8_week_y_strictly_decreasing (p : PageConfig)
    (hpos : 0 < LayoutManager.get_row_height p) :
    (∀ w w' : ℤ, 1 ≤ w → w < w' → w' ≤ 52 →
      LayoutManager.get_week_y_position p w' <
        LayoutManager.get_week_y_position p w) ∧
    LayoutManager.get_week_y_position p 1 -
        LayoutManager.get_week_y_position p 52 =
      51 * LayoutManager.get_row_height p := by
  constructor
  · intro w w' hw hlt hw'
    unfold LayoutManager.get_week_y_position
    have hc : (w : ℚ) < (w' : ℚ) := by exact_mod_cast hlt
    have hm := mul_lt_mul_of_pos_right
      (show (w : ℚ) - 1 < (w' : ℚ) - 1 by linarith) hpos
    linarith
  · unfold LayoutManager.get_week_y_position
    push_cast
    ring

/-- Concrete instance of `c8_week_y_strictly_decreasing` on the standard
page: the row height is positive there and week 2 sits strictly below
week 1. -/
theorem c8_witness :
    0 < LayoutManager.get_row_height standard_page ∧
    LayoutManager.get_week_y_position standard_page 2 <
      LayoutManager.get_week_y_position standard_page 1 := by
  have hpos : 0 < LayoutManager.get_row_height standard_page := by
    norm_num [LayoutManager.get_row_height, LayoutManager.calculated_row_height,
      LayoutManager.available_height, LayoutManager.bonus_height,
      LayoutManager.WEEKS_IN_YEAR, inch, standard_page, min_def]
  exact ⟨hpos, (c8_week_y_strictly_decreasing standard_page hpos).1 1 2
    (by norm_num) (by norm_num) (by norm_num)⟩

/-- Claim C9: `get_month_abbreviation` returns the empty string for every
integer outside 1..12 without failing, and the English three-letter
abbreviations on 1..12. -/
theorem c9_month_abbreviation :
    (∀ m : ℤ, m < 1 ∨ 12 < m → LayoutManager.get_month_abbreviation m = "") ∧
    LayoutManager.get_month_abbreviation 0 = "" ∧
    LayoutManager.get_month_abbreviation 13 = "" ∧
    LayoutManager.get_month_abbreviation (-5) = "" ∧
    LayoutManager.get_month_abbreviation 1 = "Jan" ∧
    LayoutManager.get_month_abbreviation 2 = "Feb" ∧
    LayoutManager.get_month_abbreviation 3 = "Mar" ∧
    LayoutManager.get_month_abbreviation 4 = "Apr" ∧
    LayoutManager.get_month_abbreviation 5 = "May" ∧
    LayoutManager.get_month_abbreviation 6 = "Jun" ∧
    LayoutManager.get_month_abbreviation 7 = "Jul" ∧
    LayoutManager.get_month_abbreviation 8 = "Aug" ∧
    LayoutManager.get_month_abbreviation 9 = "Sep" ∧
    LayoutManager.get_month_abbreviation 10 = "Oct" ∧
    LayoutManager.get_month_abbreviation 11 = "Nov" ∧
    LayoutManager.get_month_abbreviation 12 = "Dec" := by
  refine ⟨?_, by decide, by decide, by decide, by decide, by decide, by decide,
    by decide, by decide, by decide, by decide, by decide, by decide,
    by decide, by decide, by decide⟩
  intro m hm
  unfold LayoutManager.get_month_abbreviation
  rw [if_neg (by omega : ¬(1 ≤ m ∧ m ≤ 12))]

/-- Concrete instance of `c9_month_abbreviation` at month 14. -/
theorem c9_witness : LayoutManager.get_month_abbreviation 14 = "" :=
  c9_month_abbreviation.1 14 (Or.inr (by norm_num))

/-- Claim C10: the bottom edge of the last row equals
`bottomMargin + 0.1 inch - min(0.1 inch, bottomMargin/2)`, which never
falls below the configured bottom margin. -/
theorem c10_bottom_margin_preserved (p : PageConfig) :
    LayoutManager.get_week_y_position p 52 - LayoutManager.get_row_height p =
      p.bottom_margin + 0.1 * inch
        - min (0.1 * inch) (p.bottom_margin * 0.5) ∧
    (0 ≤ p.bottom_margin →
      p.bottom_margin ≤
        LayoutManager.get_week_y_position p 52 -
          LayoutManager.get_row_height p) := by
  have key : LayoutManager.get_week_y_position p 52 -
      LayoutManager.get_row_height p =
        p.bottom_margin + 0.1 * inch
          - min (0.1 * inch) (p.bottom_margin * 0.5) := by
    unfold LayoutManager.get_week_y_position LayoutManager.get_row_height
      LayoutManager.calculated_row_height LayoutManager.available_height
      LayoutManager.bonus_height LayoutManager.get_header_height
      LayoutManager.WEEKS_IN_YEAR
    push_cast
    ring
  refine ⟨key, fun _ => ?_⟩
  rw [key]
  have hmin := min_le_left (0.1 * inch) (p.bottom_margin * 0.5)
  have : (0 : ℚ) < inch := by norm_num [inch]
  linarith

/-- Concrete instance of `c10_bottom_margin_preserved` on the standard
page. -/
theorem c10_witness :
    standard_page.bottom_margin ≤
      LayoutManager.get_week_y_position standard_page 52 -
        LayoutManager.get_row_height standard_page :=
  (c10_bottom_margin_preserved standard_page).2 (by norm_num [standard_page])
